import Mathlib

/-!
Shallow embedding of `mediawiki.py` (wiki_tool_python): the two MediaWiki
client classes `MediaWikiAPI1_19` (legacy protocol) and `MediaWikiAPI1_31`
(modern protocol).  Network responses are modelled as explicit structures
passed to the embedded functions; the `requests` transport and JSON decoding
are replaced by these decoded-response values.  In Python all non-delete
errors are one class `MediaWikiAPIError` raised with different payloads;
here each distinct raise site gets its own constructor so statements can
tell them apart.  A Python `KeyError` from a missing dictionary key is the
`keyError` constructor.
-/

/-- Payload of a platform-reported error field: `data['error']['code']` and
`data['error']['info']`. -/
structure EBody where
  code : String
  info : String
deriving Repr, DecidableEq

/-- Failure outcomes of the embedded client calls.  `statusError n` is
`MediaWikiAPIError('Status code is ...')`; `apiError e` is
`MediaWikiAPIError(data['error'])`; `warningError w` is
`MediaWikiAPIError(data['warning'])`; `loginResultError r` is
`MediaWikiAPIError('Login result is ...')`; `canNotDelete i` is the
`CanNotDelete` subclass; `keyError k` is a Python `KeyError` on key `k`. -/
inductive MWError where
  | statusError : Nat → MWError
  | apiError : EBody → MWError
  | warningError : String → MWError
  | loginResultError : String → MWError
  | canNotDelete : String → MWError
  | keyError : String → MWError
deriving Repr, DecidableEq

/-- A parameter value in an outgoing request body.  Python code mostly puts
plain strings; `MediaWikiAPI1_19.edit_page` and `delete_page` assign
`params['token'] = self.edit_tokens[page_name],` whose trailing comma makes
the value a one-element tuple, modelled by `tup`. -/
inductive PVal where
  | s : String → PVal
  | tup : String → PVal
deriving Repr, DecidableEq

/-- A continuation cursor: the opaque key-value mapping copied from a
response into the next request's parameters. -/
abbrev Cursor := List (String × String)

/-- Decoded response to one page-list request (`action=query&list=allpages`).
`pages` is `data['query']['allpages']` reduced to the yielded titles;
`queryContinue` is the legacy `data['query-continue']` object (one cursor per
list name); `contin` is the modern unified `data['continue']` object. -/
structure PLResponse where
  status : Nat
  error : Option EBody
  pages : List String
  queryContinue : Option (List (String × Cursor))
  contin : Option Cursor
deriving Repr, DecidableEq

/-- What the loop's tail does with one decoded response: `stop` is the
clean `break`; `next c` continues with cursor `c`; `fail k` is a Python
`KeyError` on key `k` raised while reading the cursor. -/
inductive ContStep where
  | stop : ContStep
  | next : Cursor → ContStep
  | fail : String → ContStep
deriving Repr, DecidableEq

/-- Legacy continuation step, mirroring the two-step tail of the loop
(lines 206-208 of the source): `if 'query-continue' not in data: break`,
then `last_continue = data['query-continue'][listName]` — so a
`query-continue` object lacking the list-name sub-key raises `KeyError`,
it is not a clean exit. -/
def contStepQC (listName : String) (r : PLResponse) : ContStep :=
  match r.queryContinue with
  | none => ContStep.stop
  | some qc =>
    match List.lookup listName qc with
    | some c => ContStep.next c
    | none => ContStep.fail listName

/-- Modern continuation step (lines 510-512): `if 'continue' not in data:
break`, then `last_continue = data['continue']` — no sub-key access, so no
failure shape. -/
def contStepU (r : PLResponse) : ContStep :=
  match r.contin with
  | none => ContStep.stop
  | some c => ContStep.next c

/-- Cursor carried by a `next` step (used to state verbatim forwarding). -/
def contNextVal : ContStep → Cursor
  | ContStep.next c => c
  | ContStep.stop => []
  | ContStep.fail _ => []

/-- Lexicographic comparison of code-point lists, used to state ascending
title order. -/
def natListLt : List Nat -> List Nat -> Bool
  | [], [] => false
  | [], _ :: _ => true
  | _ :: _, [] => false
  | a :: as, b :: bs => if a < b then true else if b < a then false else natListLt as bs

/-- Ascending lexical order on page titles (by code point). -/
def titleLt (a b : String) : Bool :=
  natListLt (a.data.map Char.toNat) (b.data.map Char.toNat)

/-- Outcome of driving a paged query: either all items yielded normally, or
an error raised after the items yielded so far. -/
inductive PLRun where
  | ok : List String → PLRun
  | err : MWError → List String → PLRun
deriving Repr, DecidableEq

/-- One step of the `while True` loop of `get_page_list` (legacy lines
189-208, modern lines 493-512), consuming server responses in order.  `cur`
is the cursor merged into the current request; the returned cursor list
records, per request issued, the cursor it carried.  The status and error
checks precede the yields, the continuation step follows them, so a `fail`
step raises after the current page's titles were already yielded.  `none`
means the supplied response list was exhausted while the loop still wanted
another page. -/
def runPLAux (ext : PLResponse → ContStep) (cur : Cursor) :
    List PLResponse → Option (PLRun × List Cursor)
  | [] => none
  | r :: rs =>
    if r.status ≠ 200 then
      some (PLRun.err (MWError.statusError r.status) [], [cur])
    else
      match r.error with
      | some e => some (PLRun.err (MWError.apiError e) [], [cur])
      | none =>
        match ext r with
        | ContStep.stop => some (PLRun.ok r.pages, [cur])
        | ContStep.fail k =>
          some (PLRun.err (MWError.keyError k) r.pages, [cur])
        | ContStep.next c =>
          match runPLAux ext c rs with
          | none => none
          | some (PLRun.ok l, cs) => some (PLRun.ok (r.pages ++ l), cur :: cs)
          | some (PLRun.err e l, cs) =>
            some (PLRun.err e (r.pages ++ l), cur :: cs)

/-- Run `get_page_list` from the initial empty cursor (`last_continue = {}`). -/
def runPL (ext : PLResponse → ContStep) (rs : List PLResponse) :
    Option (PLRun × List Cursor) :=
  runPLAux ext [] rs

/-- Split a list into consecutive chunks of size `L` (the server's page
size); empty for `L = 0` or an empty list. -/
def chunksAux (L : Nat) : Nat → List String → List (List String)
  | 0, _ => []
  | _, [] => []
  | fuel + 1, x :: xs =>
    if L = 0 then []
    else (x :: xs).take L :: chunksAux L fuel ((x :: xs).drop L)

/-- The pages a MediaWiki server holding titles `l` serves per request at
page size `L`. -/
def chunks (L : Nat) (l : List String) : List (List String) :=
  chunksAux L l.length l

/-- Server pages including the degenerate case: an empty wiki answers the
first request with one empty page. -/
def pageChunks (L : Nat) (l : List String) : List (List String) :=
  if l.isEmpty then [[]] else chunks L l

/-- Cursor the legacy server hands out pointing at the next chunk. -/
def nextCur (rest : List (List String)) : Cursor :=
  [("apfrom", ((rest.headD []).headD ""))]

/-- Legacy server response stream for the given chunk sequence:
`query-continue.allpages` present on every page but the last. -/
def legacyStream : List (List String) → List PLResponse
  | [] => []
  | [c] => [⟨200, none, c, none, none⟩]
  | c :: c2 :: rest =>
    ⟨200, none, c, some [("allpages", nextCur (c2 :: rest))], none⟩ ::
      legacyStream (c2 :: rest)

/-- Modern server response stream for the given chunk sequence: unified
`continue` present on every page but the last. -/
def modernStream : List (List String) → List PLResponse
  | [] => []
  | [c] => [⟨200, none, c, none, none⟩]
  | c :: c2 :: rest =>
    ⟨200, none, c, none, some (nextCur (c2 :: rest))⟩ ::
      modernStream (c2 :: rest)

/-- One entry of `data['query']['pages'].values()` in a legacy token-query
response: the page title and the page-info fields (among them
`edittoken` / `deletetoken` when present). -/
structure TokPage where
  title : String
  fields : List (String × String)
deriving Repr, DecidableEq

/-- Decoded response to `MediaWikiAPI1_19.get_tokens` (lines 315-340). -/
structure TokResponse where
  status : Nat
  error : Option EBody
  warning : Option String
  pages : List TokPage
deriving Repr, DecidableEq

/-- Embedding of `MediaWikiAPI1_19.get_tokens`: status check, error check,
warning check, then build the title → token dictionary; a page lacking the
`{type}token` field raises `KeyError` as in Python. -/
def get_tokens19 (tokenType : String) (r : TokResponse) :
    Except MWError (List (String × String)) :=
  if r.status ≠ 200 then Except.error (MWError.statusError r.status)
  else
    match r.error with
    | some e => Except.error (MWError.apiError e)
    | none =>
      match r.warning with
      | some w => Except.error (MWError.warningError w)
      | none =>
        r.pages.mapM (fun p =>
          match List.lookup (tokenType ++ "token") p.fields with
          | some tok => Except.ok (p.title, tok)
          | none => Except.error (MWError.keyError (tokenType ++ "token")))

/-- Mutable state of a `MediaWikiAPI1_19` instance: the two per-title token
caches.  Association lists are read first-match, so `dict.update d` is
modelled by prepending `d`. -/
structure L19State where
  editTokens : List (String × String)
  deleteTokens : List (String × String)
deriving Repr, DecidableEq

/-- Fresh `MediaWikiAPI1_19` state: both token caches empty. -/
def initL19 : L19State := ⟨[], []⟩

/-- Decoded response to a mutation POST (`action=edit` / `action=delete`). -/
structure MutResponse where
  status : Nat
  error : Option EBody
deriving Repr, DecidableEq

deriving instance DecidableEq for Except

/-- Result of one embedded mutating call: Python return / raised error, the
client state afterwards, the token-fetch requests issued during the call
(legacy: token type and the titles argument), and the mutation POST body if
one was sent. -/
structure CallOut (σ ℓ : Type) where
  result : Except MWError Unit
  state : σ
  fetchLog : List ℓ
  posted : Option (List (String × PVal))
deriving Repr, DecidableEq

/-- Error classification of a mutation POST response shared by `edit_page`
on both clients and `delete_page` on the modern client: no `cantdelete`
specialization. -/
def classifyMut (m : MutResponse) : Except MWError Unit :=
  if m.status ≠ 200 then Except.error (MWError.statusError m.status)
  else
    match m.error with
    | some e => Except.error (MWError.apiError e)
    | none => Except.ok ()

/-- Error classification of the legacy delete POST response (lines 281-287):
error code `cantdelete` raises `CanNotDelete(info)`, every other error the
plain class. -/
def classifyDel19 (m : MutResponse) : Except MWError Unit :=
  if m.status ≠ 200 then Except.error (MWError.statusError m.status)
  else
    match m.error with
    | some e =>
      if e.code = "cantdelete" then Except.error (MWError.canNotDelete e.info)
      else Except.error (MWError.apiError e)
    | none => Except.ok ()

/-- Embedding of `MediaWikiAPI1_19.edit_page` (lines 289-313).  `fetchResp`
is the response the server would give to the token query, consumed only if
`page_name` is not yet in the edit-token cache.  The token parameter is
written as the one-element tuple `PVal.tup`, mirroring the trailing comma on
line 303. -/
def edit_page19 (st : L19State) (pageName text : String)
    (summary : Option String) (fetchResp : TokResponse) (editResp : MutResponse) :
    CallOut L19State (String × String) :=
  let params0 := [("action", PVal.s "edit"), ("title", PVal.s pageName),
    ("text", PVal.s text), ("format", PVal.s "json")]
  let params1 := match summary with
    | none => params0
    | some sm => params0 ++ [("summary", PVal.s sm)]
  let fetched :=
    if (List.lookup pageName st.editTokens).isSome then
      Except.ok (st, ([] : List (String × String)))
    else
      match get_tokens19 "edit" fetchResp with
      | Except.error e => Except.error e
      | Except.ok d =>
        Except.ok ({ st with editTokens := d ++ st.editTokens },
          [("edit", pageName)])
  match fetched with
  | Except.error e => ⟨Except.error e, st, [("edit", pageName)], none⟩
  | Except.ok (st1, log) =>
    match List.lookup pageName st1.editTokens with
    | none => ⟨Except.error (MWError.keyError pageName), st1, log, none⟩
    | some tok =>
      let params2 := params1 ++ [("token", PVal.tup tok)]
      ⟨classifyMut editResp, st1, log, some params2⟩

/-- Embedding of `MediaWikiAPI1_19.delete_page` (lines 262-287); same
token-cache discipline with the delete-token cache, and the `cantdelete`
specialization in the response classification. -/
def delete_page19 (st : L19State) (pageName : String)
    (reason : Option String) (fetchResp : TokResponse) (delResp : MutResponse) :
    CallOut L19State (String × String) :=
  let params0 := [("action", PVal.s "delete"), ("title", PVal.s pageName),
    ("format", PVal.s "json")]
  let params1 := match reason with
    | none => params0
    | some rsn => params0 ++ [("reason", PVal.s rsn)]
  let fetched :=
    if (List.lookup pageName st.deleteTokens).isSome then
      Except.ok (st, ([] : List (String × String)))
    else
      match get_tokens19 "delete" fetchResp with
      | Except.error e => Except.error e
      | Except.ok d =>
        Except.ok ({ st with deleteTokens := d ++ st.deleteTokens },
          [("delete", pageName)])
  match fetched with
  | Except.error e => ⟨Except.error e, st, [("delete", pageName)], none⟩
  | Except.ok (st1, log) =>
    match List.lookup pageName st1.deleteTokens with
    | none => ⟨Except.error (MWError.keyError pageName), st1, log, none⟩
    | some tok =>
      let params2 := params1 ++ [("token", PVal.tup tok)]
      ⟨classifyDel19 delResp, st1, log, some params2⟩

/-- Decoded response to the modern token meta-query
(`action=query&meta=tokens`, lines 660-678).  `query` is the optional
`data['query']` member, reduced to its `tokens` map; a platform error
response carries `error` and omits `query`. -/
structure TR31 where
  status : Nat
  error : Option EBody
  query : Option (List (String × String))
deriving Repr, DecidableEq

/-- Embedding of `MediaWikiAPI1_31.get_token`: after the status check the
code reads `data['query']['tokens']['{type}token']` directly — the `error`
member is never inspected (the source marks this `# TODO: handle errors`),
so an error body surfaces as a `KeyError` on the missing key. -/
def get_token31 (tokenType : String) (r : TR31) : Except MWError String :=
  if r.status ≠ 200 then Except.error (MWError.statusError r.status)
  else
    match r.query with
    | none => Except.error (MWError.keyError "query")
    | some toks =>
      match List.lookup (tokenType ++ "token") toks with
      | some tok => Except.ok tok
      | none => Except.error (MWError.keyError (tokenType ++ "token"))

/-- Mutable state of a `MediaWikiAPI1_31` instance: the session-global CSRF
token cache, `None` until the first mutating call fetches it. -/
structure M31State where
  csrfToken : Option String
deriving Repr, DecidableEq

/-- Fresh `MediaWikiAPI1_31` state. -/
def initM31 : M31State := ⟨none⟩

/-- Embedding of `MediaWikiAPI1_31.edit_page` (lines 633-658): fetch the
CSRF token first when none is cached (a fetch failure propagates before any
POST is built), then POST with the token as a plain string parameter. -/
def edit_page31 (st : M31State) (pageName text : String)
    (summary : Option String) (fetchResp : TR31) (editResp : MutResponse) :
    CallOut M31State String :=
  match st.csrfToken with
  | none =>
    match get_token31 "csrf" fetchResp with
    | Except.error e => ⟨Except.error e, st, ["csrf"], none⟩
    | Except.ok tok =>
      let params0 := [("action", PVal.s "edit"), ("title", PVal.s pageName),
        ("text", PVal.s text), ("token", PVal.s tok), ("format", PVal.s "json")]
      let params1 := match summary with
        | none => params0
        | some sm => params0 ++ [("summary", PVal.s sm)]
      ⟨classifyMut editResp, ⟨some tok⟩, ["csrf"], some params1⟩
  | some tok =>
    let params0 := [("action", PVal.s "edit"), ("title", PVal.s pageName),
      ("text", PVal.s text), ("token", PVal.s tok), ("format", PVal.s "json")]
    let params1 := match summary with
      | none => params0
      | some sm => params0 ++ [("summary", PVal.s sm)]
    ⟨classifyMut editResp, st, [], some params1⟩

/-- Embedding of `MediaWikiAPI1_31.delete_page` (lines 607-631): same CSRF
discipline; the response classification has no `cantdelete` case — every
platform error raises the plain class. -/
def delete_page31 (st : M31State) (pageName : String)
    (reason : Option String) (fetchResp : TR31) (delResp : MutResponse) :
    CallOut M31State String :=
  match st.csrfToken with
  | none =>
    match get_token31 "csrf" fetchResp with
    | Except.error e => ⟨Except.error e, st, ["csrf"], none⟩
    | Except.ok tok =>
      let params0 := [("action", PVal.s "delete"), ("title", PVal.s pageName),
        ("token", PVal.s tok), ("format", PVal.s "json")]
      let params1 := match reason with
        | none => params0
        | some rsn => params0 ++ [("reason", PVal.s rsn)]
      ⟨classifyMut delResp, ⟨some tok⟩, ["csrf"], some params1⟩
  | some tok =>
    let params0 := [("action", PVal.s "delete"), ("title", PVal.s pageName),
      ("token", PVal.s tok), ("format", PVal.s "json")]
    let params1 := match reason with
      | none => params0
      | some rsn => params0 ++ [("reason", PVal.s rsn)]
    ⟨classifyMut delResp, st, [], some params1⟩

/-- The `login` member of a decoded login response: the result string and, on a
`NeedToken` challenge, the token. -/
structure LoginBody where
  result : String
  token : Option String
deriving Repr, DecidableEq

/-- Decoded response to an `action=login` POST. -/
structure LoginResponse where
  status : Nat
  error : Option EBody
  warning : Option String
  login : Option LoginBody
deriving Repr, DecidableEq

/-- Error/warning/shape classification common to both legacy login attempts
(lines 352-359 and 378-385): status, error, warning, then the `login`
member (`KeyError` when missing). -/
def classifyLogin19 (r : LoginResponse) : Except MWError LoginBody :=
  if r.status ≠ 200 then Except.error (MWError.statusError r.status)
  else
    match r.error with
    | some e => Except.error (MWError.apiError e)
    | none =>
      match r.warning with
      | some w => Except.error (MWError.warningError w)
      | none =>
        match r.login with
        | none => Except.error (MWError.keyError "login")
        | some lb => Except.ok lb

/-- Embedding of `MediaWikiAPI1_19.api_login` (lines 342-391).  Returns the
call outcome, the number of login POSTs issued, and the body of the second
POST when one is sent. -/
def api_login19 (username password : String) (r1 r2 : LoginResponse) :
    Except MWError Unit × Nat × Option (List (String × String)) :=
  match classifyLogin19 r1 with
  | Except.error e => (Except.error e, 1, none)
  | Except.ok lb =>
    if lb.result = "Success" then (Except.ok (), 1, none)
    else if lb.result ≠ "NeedToken" then
      (Except.error (MWError.loginResultError lb.result), 1, none)
    else
      match lb.token with
      | none => (Except.error (MWError.keyError "token"), 1, none)
      | some tok =>
        let params2 := [("action", "login"), ("format", "json"),
          ("lgname", username), ("lgpassword", password), ("lgtoken", tok)]
        match classifyLogin19 r2 with
        | Except.error e => (Except.error e, 2, some params2)
        | Except.ok lb2 =>
          if lb2.result = "Success" then (Except.ok (), 2, some params2)
          else (Except.error (MWError.loginResultError lb2.result), 2,
            some params2)

/-- Embedding of `MediaWikiAPI1_31.api_login` (lines 680-698): fetch a
login token, POST the credentials plus token, then check only status and
the `error` member — neither `warning` nor `login.result` is inspected. -/
def api_login31 (username password : String) (tokResp : TR31)
    (r : LoginResponse) : Except MWError Unit :=
  match get_token31 "login" tokResp with
  | Except.error e => Except.error e
  | Except.ok _ =>
    if r.status ≠ 200 then Except.error (MWError.statusError r.status)
    else
      match r.error with
      | some e => Except.error (MWError.apiError e)
      | none => Except.ok ()

/-- A mutating call on the modern client, for sequencing. -/
inductive MCall where
  | edit : String → String → Option String → MCall
  | del : String → Option String → MCall
deriving Repr, DecidableEq

/-- Dispatch one modern mutating call. -/
def runCall31 (st : M31State) : MCall → TR31 → MutResponse →
    CallOut M31State String
  | MCall.edit p t sm => edit_page31 st p t sm
  | MCall.del p rsn => delete_page31 st p rsn

/-- Run a sequence of modern mutating calls, each with the server responses
it would receive, threading the session state; returns the final state and
the total number of token-fetch requests issued. -/
def runCalls31 (st : M31State) :
    List (MCall × TR31 × MutResponse) → M31State × Nat
  | [] => (st, 0)
  | (c, f, m) :: rest =>
    let out := runCall31 st c f m
    let (st2, n) := runCalls31 out.state rest
    (st2, out.fetchLog.length + n)

/-!  Helper lemmas about the continuation loop and the server chunking. -/

lemma runPLAux_none_of_all_cont (ext : PLResponse → ContStep) :
    ∀ (rs : List PLResponse) (cur : Cursor),
      (∀ x ∈ rs, x.status = 200 ∧ x.error = none) →
      (∀ x ∈ rs, ∃ c, ext x = ContStep.next c) →
      runPLAux ext cur rs = none := by
  intro rs
  induction rs with
  | nil => intro cur _ _; rfl
  | cons r rs ih =>
    intro cur hok hnext
    obtain ⟨h200, herr⟩ := hok r (by simp)
    obtain ⟨c, hc⟩ := hnext r (by simp)
    have ihc := ih c (fun x hx => hok x (by simp [hx]))
      (fun x hx => hnext x (by simp [hx]))
    simp [runPLAux, h200, herr, hc, ihc]

lemma runPLAux_stops_at_first_absent (ext : PLResponse → ContStep) :
    ∀ (rs₁ : List PLResponse) (r : PLResponse) (rs₂ : List PLResponse)
      (cur : Cursor),
      (∀ x ∈ rs₁, x.status = 200 ∧ x.error = none ∧
        ∃ c, ext x = ContStep.next c) →
      r.status = 200 → r.error = none → ext r = ContStep.stop →
      runPLAux ext cur (rs₁ ++ r :: rs₂) =
        some (PLRun.ok ((rs₁.map PLResponse.pages).flatten ++ r.pages),
          cur :: rs₁.map (fun x => contNextVal (ext x))) := by
  intro rs₁
  induction rs₁ with
  | nil =>
    intro r rs₂ cur _ h200 herr hext
    simp [runPLAux, h200, herr, hext]
  | cons x rs₁ ih =>
    intro r rs₂ cur hpre h200 herr hext
    obtain ⟨hx200, hxerr, c, hc⟩ := hpre x (by simp)
    have ihc := ih r rs₂ c (fun y hy => hpre y (by simp [hy])) h200 herr hext
    simp [runPLAux, hx200, hxerr, hc, ihc, contNextVal]

lemma runPLAux_fails_at_first_missing_key (ext : PLResponse → ContStep) :
    ∀ (rs₁ : List PLResponse) (r : PLResponse) (rs₂ : List PLResponse)
      (cur : Cursor) (k : String),
      (∀ x ∈ rs₁, x.status = 200 ∧ x.error = none ∧
        ∃ c, ext x = ContStep.next c) →
      r.status = 200 → r.error = none → ext r = ContStep.fail k →
      runPLAux ext cur (rs₁ ++ r :: rs₂) =
        some (PLRun.err (MWError.keyError k)
            ((rs₁.map PLResponse.pages).flatten ++ r.pages),
          cur :: rs₁.map (fun x => contNextVal (ext x))) := by
  intro rs₁
  induction rs₁ with
  | nil =>
    intro r rs₂ cur k _ h200 herr hext
    simp [runPLAux, h200, herr, hext]
  | cons x rs₁ ih =>
    intro r rs₂ cur k hpre h200 herr hext
    obtain ⟨hx200, hxerr, c, hc⟩ := hpre x (by simp)
    have ihc := ih r rs₂ c k (fun y hy => hpre y (by simp [hy])) h200 herr
      hext
    simp [runPLAux, hx200, hxerr, hc, ihc, contNextVal]

lemma chunksAux_nil (L : Nat) : ∀ fuel : Nat, chunksAux L fuel [] = [] := by
  intro fuel
  cases fuel <;> rfl

lemma chunksAux_join (L : Nat) (hL : 0 < L) :
    ∀ (fuel : Nat) (l : List String), l.length ≤ fuel →
      (chunksAux L fuel l).flatten = l := by
  intro fuel
  induction fuel with
  | zero =>
    intro l hl
    have : l = [] := List.eq_nil_of_length_eq_zero (Nat.le_zero.mp hl)
    subst this
    rfl
  | succ fuel ih =>
    intro l hl
    match l with
    | [] => rfl
    | x :: xs =>
      have hL0 : L ≠ 0 := Nat.pos_iff_ne_zero.mp hL
      have hdrop : (List.drop L (x :: xs)).length ≤ fuel := by
        rw [List.length_drop]
        have := List.length_cons x xs
        omega
      simp only [chunksAux, hL0, if_false, List.flatten_cons]
      rw [ih (List.drop L (x :: xs)) hdrop]
      exact List.take_append_drop L (x :: xs)

lemma chunksAux_length (L : Nat) (hL : 0 < L) :
    ∀ (fuel : Nat) (l : List String), l.length ≤ fuel → l ≠ [] →
      (chunksAux L fuel l).length = (l.length + L - 1) / L := by
  intro fuel
  induction fuel with
  | zero =>
    intro l hl hne
    exact absurd (List.eq_nil_of_length_eq_zero (Nat.le_zero.mp hl)) hne
  | succ fuel ih =>
    intro l hl hne
    match l with
    | [] => exact absurd rfl hne
    | x :: xs =>
      have hL0 : L ≠ 0 := Nat.pos_iff_ne_zero.mp hL
      have hlen : (x :: xs).length = xs.length + 1 := List.length_cons x xs
      by_cases hsmall : (x :: xs).length ≤ L
      · have hdrop : List.drop L (x :: xs) = [] := by
          apply List.eq_nil_of_length_eq_zero
          rw [List.length_drop]
          omega
        have hdiv : (xs.length + 1 + L - 1) / L = 1 := by
          apply Nat.div_eq_of_lt_le
          · simp only [List.length_cons] at hsmall
            omega
          · simp only [List.length_cons] at hsmall
            omega
        simp only [chunksAux, hL0, if_false, hdrop, chunksAux_nil,
          List.length_cons, List.length_nil]
        rw [hdiv]
      · have hdroplen : (List.drop L (x :: xs)).length = (x :: xs).length - L := by
          rw [List.length_drop]
        have hdrople : (List.drop L (x :: xs)).length ≤ fuel := by
          simp only [List.length_cons] at hdroplen ⊢
          omega
        have hdropne : List.drop L (x :: xs) ≠ [] := by
          intro hcon
          rw [hcon] at hdroplen
          simp only [List.length_nil, List.length_cons] at hdroplen
          omega
        have ihv := ih (List.drop L (x :: xs)) hdrople hdropne
        simp only [chunksAux, hL0, if_false, List.length_cons]
        rw [ihv, hdroplen]
        have heq1 : (x :: xs).length - L + L - 1 = xs.length := by
          simp only [List.length_cons]
          omega
        have heq2 : xs.length + 1 + L - 1 = xs.length + L := by omega
        rw [heq1, heq2, Nat.add_div_right _ hL]

lemma runPLAux_legacyStream :
    ∀ (cs : List (List String)), cs ≠ [] → ∀ cur : Cursor,
      ∃ curs : List Cursor,
        runPLAux (contStepQC "allpages") cur (legacyStream cs) =
          some (PLRun.ok cs.flatten, curs) ∧ curs.length = cs.length := by
  intro cs
  induction cs with
  | nil => intro h; exact absurd rfl h
  | cons c cs ih =>
    intro _ cur
    match cs, ih with
    | [], _ =>
      refine ⟨[cur], ?_, rfl⟩
      simp [legacyStream, runPLAux, contStepQC]
    | c2 :: rest, ih =>
      obtain ⟨curs, hrun, hlen⟩ := ih (by simp) (nextCur (c2 :: rest))
      refine ⟨cur :: curs, ?_, by simp [hlen]⟩
      simp [legacyStream, runPLAux, contStepQC, List.lookup, hrun]

lemma chunks_ne_nil (L : Nat) (hL : 0 < L) (l : List String) (hne : l ≠ []) :
    chunks L l ≠ [] := by
  match l with
  | x :: xs =>
    have hL0 : L ≠ 0 := Nat.pos_iff_ne_zero.mp hL
    simp [chunks, List.length_cons, chunksAux, hL0]

lemma runPLAux_modernStream :
    ∀ (cs : List (List String)), cs ≠ [] → ∀ cur : Cursor,
      ∃ curs : List Cursor,
        runPLAux contStepU cur (modernStream cs) =
          some (PLRun.ok cs.flatten, curs) ∧ curs.length = cs.length := by
  intro cs
  induction cs with
  | nil => intro h; exact absurd rfl h
  | cons c cs ih =>
    intro _ cur
    match cs, ih with
    | [], _ =>
      refine ⟨[cur], ?_, rfl⟩
      simp [modernStream, runPLAux, contStepU]
    | c2 :: rest, ih =>
      obtain ⟨curs, hrun, hlen⟩ := ih (by simp) (nextCur (c2 :: rest))
      refine ⟨cur :: curs, ?_, by simp [hlen]⟩
      simp [modernStream, runPLAux, contStepU, hrun]

/-!  Claim theorems. -/

/-- C1 (amended): for every page size `L ≥ 1` and every non-empty ascending
dataset of `N` titles, `get_page_list` yields exactly the `N` titles, in
order and without duplication, across exactly `⌈N/L⌉` requests, on both the
legacy and the modern client.  (The original claim also covered `N = 0`,
where the loop still issues one request while `⌈0/L⌉ = 0`; see the
counterexample theorem.) -/
theorem get_page_list_pagination (L : Nat) (l : List String)
    (hL : 0 < L) (hne : l ≠ []) (hsort : List.Chain' (fun a b => titleLt a b = true) l) :
    ∃ cursL cursM : List Cursor,
      runPL (contStepQC "allpages") (legacyStream (pageChunks L l)) =
        some (PLRun.ok l, cursL) ∧
      runPL contStepU (modernStream (pageChunks L l)) =
        some (PLRun.ok l, cursM) ∧
      cursL.length = (l.length + L - 1) / L ∧
      cursM.length = (l.length + L - 1) / L ∧
      List.Chain' (fun a b => titleLt a b = true) l := by
  have hempty : l.isEmpty = false := by
    cases l with
    | nil => exact absurd rfl hne
    | cons x xs => rfl
  have hpc : pageChunks L l = chunks L l := by
    simp [pageChunks, hempty]
  have hflat : (chunks L l).flatten = l :=
    chunksAux_join L hL l.length l (le_refl _)
  have hlenc : (chunks L l).length = (l.length + L - 1) / L :=
    chunksAux_length L hL l.length l (le_refl _) hne
  have hnen : chunks L l ≠ [] := chunks_ne_nil L hL l hne
  obtain ⟨cursL, hrunL, hlenL⟩ := runPLAux_legacyStream (chunks L l) hnen []
  obtain ⟨cursM, hrunM, hlenM⟩ := runPLAux_modernStream (chunks L l) hnen []
  refine ⟨cursL, cursM, ?_, ?_, ?_, ?_, hsort⟩
  · show runPLAux (contStepQC "allpages") [] (legacyStream (pageChunks L l))
      = some (PLRun.ok l, cursL)
    rw [hpc, hrunL, hflat]
  · show runPLAux contStepU [] (modernStream (pageChunks L l))
      = some (PLRun.ok l, cursM)
    rw [hpc, hrunM, hflat]
  · rw [hlenL, hlenc]
  · rw [hlenM, hlenc]

/-- C1 witness: the concrete scenario of the spec — limit 2, server titles
A..E, three requests, items observed in order on both clients. -/
theorem get_page_list_pagination_witness :
    0 < 2 ∧
    (∃ cursL cursM : List Cursor,
      runPL (contStepQC "allpages")
        (legacyStream (pageChunks 2 ["A", "B", "C", "D", "E"])) =
        some (PLRun.ok ["A", "B", "C", "D", "E"], cursL) ∧
      runPL contStepU
        (modernStream (pageChunks 2 ["A", "B", "C", "D", "E"])) =
        some (PLRun.ok ["A", "B", "C", "D", "E"], cursM) ∧
      cursL.length = (["A", "B", "C", "D", "E"].length + 2 - 1) / 2 ∧
      cursM.length = (["A", "B", "C", "D", "E"].length + 2 - 1) / 2 ∧
      List.Chain' (fun a b => titleLt a b = true) ["A", "B", "C", "D", "E"]) :=
  ⟨by decide,
   get_page_list_pagination 2 ["A", "B", "C", "D", "E"] (by decide) (by decide)
     (by simp only [List.chain'_cons, List.chain'_singleton, and_true]
         exact ⟨by decide, by decide, by decide, by decide⟩)⟩

/-- C1 counterexample: with an empty dataset (`N = 0`) and limit 2 the loop
still issues exactly one request (one cursor in the log) on each client,
whereas the claim demands `⌈0/2⌉ = 0` requests. -/
theorem get_page_list_empty_counterexample :
    runPL (contStepQC "allpages") (legacyStream (pageChunks 2 [])) =
      some (PLRun.ok [], [[]]) ∧
    runPL contStepU (modernStream (pageChunks 2 [])) =
      some (PLRun.ok [], [[]]) ∧
    (([] : List String).length + 2 - 1) / 2 = 0 ∧
    ¬ ([([] : Cursor)].length = (([] : List String).length + 2 - 1) / 2) := by
  decide

/-- C2: on every run of the continuation loop over well-formed responses
(status 200, no error field), for either variant's continuation field
(`query-continue` nested under the list name on legacy, unified `continue`
on modern): while every supplied response carries the field the loop keeps
requesting (it exhausts any such finite response list and demands more);
the sequence ends exactly at the first response whose variant-appropriate
field is absent — cleanly when the legacy `query-continue` object itself is
missing or the modern `continue` is missing, and with the program's
`KeyError` after yielding that page when a legacy `query-continue` object
is present without the list-name sub-key — in each case with exactly one
request per prefix response plus one final request, each request after the
first carrying verbatim the continuation object of the previous response. -/
theorem continuation_loop_characterization (listName : String) :
    (∀ (cur : Cursor) (rs : List PLResponse),
      (∀ x ∈ rs, x.status = 200 ∧ x.error = none) →
      (∀ x ∈ rs, ∃ c, contStepQC listName x = ContStep.next c) →
      runPLAux (contStepQC listName) cur rs = none) ∧
    (∀ (cur : Cursor) (rs₁ : List PLResponse) (r : PLResponse)
        (rs₂ : List PLResponse),
      (∀ x ∈ rs₁, x.status = 200 ∧ x.error = none ∧
        ∃ c, contStepQC listName x = ContStep.next c) →
      r.status = 200 → r.error = none →
      contStepQC listName r = ContStep.stop →
      runPLAux (contStepQC listName) cur (rs₁ ++ r :: rs₂) =
        some (PLRun.ok ((rs₁.map PLResponse.pages).flatten ++ r.pages),
          cur :: rs₁.map (fun x => contNextVal (contStepQC listName x)))) ∧
    (∀ (cur : Cursor) (rs₁ : List PLResponse) (r : PLResponse)
        (rs₂ : List PLResponse),
      (∀ x ∈ rs₁, x.status = 200 ∧ x.error = none ∧
        ∃ c, contStepQC listName x = ContStep.next c) →
      r.status = 200 → r.error = none →
      contStepQC listName r = ContStep.fail listName →
      runPLAux (contStepQC listName) cur (rs₁ ++ r :: rs₂) =
        some (PLRun.err (MWError.keyError listName)
            ((rs₁.map PLResponse.pages).flatten ++ r.pages),
          cur :: rs₁.map (fun x => contNextVal (contStepQC listName x)))) ∧
    (∀ (cur : Cursor) (rs : List PLResponse),
      (∀ x ∈ rs, x.status = 200 ∧ x.error = none) →
      (∀ x ∈ rs, ∃ c, contStepU x = ContStep.next c) →
      runPLAux contStepU cur rs = none) ∧
    (∀ (cur : Cursor) (rs₁ : List PLResponse) (r : PLResponse)
        (rs₂ : List PLResponse),
      (∀ x ∈ rs₁, x.status = 200 ∧ x.error = none ∧
        ∃ c, contStepU x = ContStep.next c) →
      r.status = 200 → r.error = none → contStepU r = ContStep.stop →
      runPLAux contStepU cur (rs₁ ++ r :: rs₂) =
        some (PLRun.ok ((rs₁.map PLResponse.pages).flatten ++ r.pages),
          cur :: rs₁.map (fun x => contNextVal (contStepU x)))) :=
  ⟨fun cur rs h1 h2 => runPLAux_none_of_all_cont _ rs cur h1 h2,
   fun cur rs₁ r rs₂ h1 h2 h3 h4 =>
     runPLAux_stops_at_first_absent _ rs₁ r rs₂ cur h1 h2 h3 h4,
   fun cur rs₁ r rs₂ h1 h2 h3 h4 =>
     runPLAux_fails_at_first_missing_key _ rs₁ r rs₂ cur listName h1 h2 h3
       h4,
   fun cur rs h1 h2 => runPLAux_none_of_all_cont _ rs cur h1 h2,
   fun cur rs₁ r rs₂ h1 h2 h3 h4 =>
     runPLAux_stops_at_first_absent _ rs₁ r rs₂ cur h1 h2 h3 h4⟩

/-- C2 witness: first, three well-formed legacy responses of which the
second lacks the whole `query-continue` object — the loop issues exactly
two requests, the second carrying the first response's cursor verbatim,
stops cleanly, and never touches the third response; second, a run whose
second response carries a `query-continue` object without the `allpages`
sub-key — the loop still issues exactly two requests and ends with the
`KeyError` after yielding that page's title. -/
theorem continuation_loop_characterization_witness :
    runPLAux (contStepQC "allpages") []
      [⟨200, none, ["A"], some [("allpages", [("apfrom", "B")])], none⟩,
       ⟨200, none, ["B"], none, none⟩,
       ⟨200, none, ["C"], none, none⟩] =
      some (PLRun.ok ["A", "B"], [[], [("apfrom", "B")]]) ∧
    runPLAux (contStepQC "allpages") []
      [⟨200, none, ["A"], some [("allpages", [("apfrom", "X")])], none⟩,
       ⟨200, none, ["X"], some [("otherlist", [("k", "v")])], none⟩,
       ⟨200, none, ["C"], none, none⟩] =
      some (PLRun.err (MWError.keyError "allpages") ["A", "X"],
        [[], [("apfrom", "X")]]) := by
  constructor
  · have h := (continuation_loop_characterization "allpages").2.1 []
      [⟨200, none, ["A"], some [("allpages", [("apfrom", "B")])], none⟩]
      ⟨200, none, ["B"], none, none⟩
      [⟨200, none, ["C"], none, none⟩]
      (by
        intro x hx
        rw [List.mem_singleton] at hx
        subst hx
        exact ⟨rfl, rfl, [("apfrom", "B")], rfl⟩)
      rfl rfl rfl
    simpa using h
  · have h := (continuation_loop_characterization "allpages").2.2.1 []
      [⟨200, none, ["A"], some [("allpages", [("apfrom", "X")])], none⟩]
      ⟨200, none, ["X"], some [("otherlist", [("k", "v")])], none⟩
      [⟨200, none, ["C"], none, none⟩]
      (by
        intro x hx
        rw [List.mem_singleton] at hx
        subst hx
        exact ⟨rfl, rfl, [("apfrom", "X")], rfl⟩)
      rfl rfl (by decide)
    simpa using h

/-- C3 counterexample: on the modern client a delete response with error
code `cantdelete` raises the plain error class, not the `CanNotDelete`
specialization — `MediaWikiAPI1_31.delete_page` has no `cantdelete` branch. -/
theorem delete_cantdelete_modern_counterexample :
    (delete_page31 ⟨some "tok"⟩ "Page" none ⟨200, none, none⟩
      ⟨200, some ⟨"cantdelete", "protected"⟩⟩).result =
      Except.error (MWError.apiError ⟨"cantdelete", "protected"⟩) ∧
    (Except.error (MWError.apiError ⟨"cantdelete", "protected"⟩) :
      Except MWError Unit) ≠
      Except.error (MWError.canNotDelete "protected") := by
  decide

/-- C3 (amended): on the legacy client `delete_page` raises the
`CanNotDelete` specialization exactly when the platform error code is
`cantdelete` and the plain error class for every other code; the modern
client raises the plain error class for every error code, `cantdelete`
included. -/
theorem delete_page_error_classification (st : L19State) (stok : String)
    (p : String) (rsn : Option String) (f : TokResponse) (f31 : TR31)
    (d : MutResponse) (e : EBody) (tok : String)
    (htok : List.lookup p st.deleteTokens = some tok)
    (hst : d.status = 200) (herr : d.error = some e) :
    ((delete_page19 st p rsn f d).result =
        Except.error (MWError.canNotDelete e.info) ↔ e.code = "cantdelete") ∧
    (e.code ≠ "cantdelete" →
      (delete_page19 st p rsn f d).result = Except.error (MWError.apiError e)) ∧
    (delete_page31 ⟨some stok⟩ p rsn f31 d).result =
      Except.error (MWError.apiError e) := by
  refine ⟨⟨?_, ?_⟩, ?_, ?_⟩
  · intro h
    by_contra hc
    simp [delete_page19, htok, classifyDel19, hst, herr, hc] at h
  · intro h
    simp [delete_page19, htok, classifyDel19, hst, herr, h]
  · intro h
    simp [delete_page19, htok, classifyDel19, hst, herr, h]
  · simp [delete_page31, classifyMut, hst, herr]

/-- C3 witness: concrete legacy and modern delete calls with a `cantdelete`
error body. -/
theorem delete_page_error_classification_witness :
    ((delete_page19 ⟨[], [("P", "t")]⟩ "P" none ⟨200, none, none, []⟩
        ⟨200, some ⟨"cantdelete", "busy"⟩⟩).result =
      Except.error (MWError.canNotDelete "busy") ↔
        ("cantdelete" : String) = "cantdelete") ∧
    (("cantdelete" : String) ≠ "cantdelete" →
      (delete_page19 ⟨[], [("P", "t")]⟩ "P" none ⟨200, none, none, []⟩
        ⟨200, some ⟨"cantdelete", "busy"⟩⟩).result =
      Except.error (MWError.apiError ⟨"cantdelete", "busy"⟩)) ∧
    (delete_page31 ⟨some "t"⟩ "P" none ⟨200, none, none⟩
        ⟨200, some ⟨"cantdelete", "busy"⟩⟩).result =
      Except.error (MWError.apiError ⟨"cantdelete", "busy"⟩) :=
  delete_page_error_classification ⟨[], [("P", "t")]⟩ "t" "P" none
    ⟨200, none, none, []⟩ ⟨200, none, none⟩ ⟨200, some ⟨"cantdelete", "busy"⟩⟩
    ⟨"cantdelete", "busy"⟩ "t" (by decide) rfl rfl

/-- C4 counterexample: the modern client's login accepts a response carrying
a warning field (and no error field) as success — `MediaWikiAPI1_31.api_login`
never inspects warnings. -/
theorem login_warning_modern_counterexample :
    api_login31 "user" "pass" ⟨200, none, some [("logintoken", "T")]⟩
      ⟨200, none, some "deprecation warning", some ⟨"Success", none⟩⟩ =
      Except.ok () := by
  decide

/-- C4 (amended): on the legacy client a decoded login response carrying a
warning field — on either attempt, even without an error field — is
escalated to the error class; the modern client's login ignores the warning
field and reports success. -/
theorem login_warning_escalation (u p w : String) :
    (∀ r1 r2 : LoginResponse, r1.status = 200 → r1.error = none →
      r1.warning = some w →
      (api_login19 u p r1 r2).1 = Except.error (MWError.warningError w)) ∧
    (∀ (r1 r2 : LoginResponse) (tok : String), r1.status = 200 →
      r1.error = none → r1.warning = none →
      r1.login = some ⟨"NeedToken", some tok⟩ →
      r2.status = 200 → r2.error = none → r2.warning = some w →
      (api_login19 u p r1 r2).1 = Except.error (MWError.warningError w)) ∧
    (∀ (tk : TR31) (rm : LoginResponse) (tok : String),
      get_token31 "login" tk = Except.ok tok →
      rm.status = 200 → rm.error = none → rm.warning = some w →
      api_login31 u p tk rm = Except.ok ()) := by
  refine ⟨?_, ?_, ?_⟩
  · intro r1 r2 h1 h2 h3
    simp [api_login19, classifyLogin19, h1, h2, h3]
  · intro r1 r2 tok h1 h2 h3 h4 h5 h6 h7
    simp [api_login19, classifyLogin19, h1, h2, h3, h4, h5, h6, h7]
  · intro tk rm tok htk h1 h2 h3
    simp [api_login31, htk, h1, h2]

/-- C4 witness: concrete responses carrying a warning during login. -/
theorem login_warning_escalation_witness :
    (api_login19 "u" "p" ⟨200, none, some "w1", none⟩
      ⟨200, none, none, none⟩).1 = Except.error (MWError.warningError "w1") ∧
    api_login31 "u" "p" ⟨200, none, some [("logintoken", "T")]⟩
      ⟨200, none, some "w1", some ⟨"Success", none⟩⟩ = Except.ok () :=
  ⟨(login_warning_escalation "u" "p" "w1").1 ⟨200, none, some "w1", none⟩
      ⟨200, none, none, none⟩ rfl rfl rfl,
   (login_warning_escalation "u" "p" "w1").2.2 ⟨200, none, some [("logintoken", "T")]⟩
      ⟨200, none, some "w1", some ⟨"Success", none⟩⟩ "T" (by decide) rfl rfl rfl⟩

/-- C5: a token-fetch response carrying a platform error propagates as the
error class on the legacy client (both in `get_tokens` and from the
triggering `edit_page`), but on the modern client `get_token` never reads
the error member (`# TODO: handle errors` in the source) and the mutating
call surfaces a `KeyError` on the absent `query` member instead. -/
theorem token_fetch_error_propagation :
    get_tokens19 "edit" ⟨200, some ⟨"maxlag", "lagged"⟩, none, []⟩ =
      Except.error (MWError.apiError ⟨"maxlag", "lagged"⟩) ∧
    (edit_page19 initL19 "P" "text" none
        ⟨200, some ⟨"maxlag", "lagged"⟩, none, []⟩ ⟨200, none⟩).result =
      Except.error (MWError.apiError ⟨"maxlag", "lagged"⟩) ∧
    get_token31 "csrf" ⟨200, some ⟨"maxlag", "lagged"⟩, none⟩ =
      Except.error (MWError.keyError "query") ∧
    (edit_page31 initM31 "P" "text" none
        ⟨200, some ⟨"maxlag", "lagged"⟩, none⟩ ⟨200, none⟩).result =
      Except.error (MWError.keyError "query") ∧
    (delete_page31 initM31 "P" none
        ⟨200, some ⟨"maxlag", "lagged"⟩, none⟩ ⟨200, none⟩).result =
      Except.error (MWError.keyError "query") := by
  decide

lemma runCalls31_cached (tok : String) :
    ∀ calls : List (MCall × TR31 × MutResponse),
      runCalls31 ⟨some tok⟩ calls = (⟨some tok⟩, 0) := by
  intro calls
  induction calls with
  | nil => rfl
  | cons cfm rest ih =>
    obtain ⟨c, f, m⟩ := cfm
    cases c with
    | edit pg tx sm => simp [runCalls31, runCall31, edit_page31, ih]
    | del pg rsn => simp [runCalls31, runCall31, delete_page31, ih]

/-- C6: legacy login handshake — result `Success` on the first attempt
completes with one POST and no second body; a non-`Success`,
non-`NeedToken` first result raises the login-result error carrying that
string after one POST; `NeedToken` triggers exactly one second POST
resending the credentials plus the returned token, whose `Success` result
completes and whose any other result raises the login-result error carrying
that string; and no run ever issues more than two POSTs. -/
theorem api_login19_handshake (u p : String) (r1 r2 : LoginResponse)
    (lb : LoginBody) (h1 : r1.status = 200) (h2 : r1.error = none)
    (h3 : r1.warning = none) (h4 : r1.login = some lb) :
    (lb.result = "Success" → api_login19 u p r1 r2 = (Except.ok (), 1, none)) ∧
    (lb.result ≠ "Success" → lb.result ≠ "NeedToken" →
      api_login19 u p r1 r2 =
        (Except.error (MWError.loginResultError lb.result), 1, none)) ∧
    (∀ tok, lb.result = "NeedToken" → lb.token = some tok →
      (api_login19 u p r1 r2).2.1 = 2 ∧
      (api_login19 u p r1 r2).2.2 = some [("action", "login"),
        ("format", "json"), ("lgname", u), ("lgpassword", p),
        ("lgtoken", tok)] ∧
      (∀ lb2 : LoginBody, r2.status = 200 → r2.error = none →
        r2.warning = none → r2.login = some lb2 →
        ((lb2.result = "Success" → (api_login19 u p r1 r2).1 = Except.ok ()) ∧
         (lb2.result ≠ "Success" → (api_login19 u p r1 r2).1 =
           Except.error (MWError.loginResultError lb2.result))))) ∧
    (∀ ra rb : LoginResponse, (api_login19 u p ra rb).2.1 ≤ 2) := by
  have hcl1 : classifyLogin19 r1 = Except.ok lb := by
    simp [classifyLogin19, h1, h2, h3, h4]
  refine ⟨?_, ?_, ?_, ?_⟩
  · intro hS
    simp [api_login19, hcl1, hS]
  · intro hS hN
    simp [api_login19, hcl1, hS, hN]
  · intro tok hN htok
    have hS : lb.result ≠ "Success" := by
      rw [hN]; decide
    have hNN : ¬(lb.result ≠ "NeedToken") := by simp [hN]
    refine ⟨?_, ?_, ?_⟩
    · simp only [api_login19, hcl1]
      rw [if_neg hS, if_neg hNN]
      simp only [htok]
      cases hcl2 : classifyLogin19 r2 with
      | error e => rfl
      | ok lb2 => by_cases hS2 : lb2.result = "Success" <;> simp [hS2]
    · simp only [api_login19, hcl1]
      rw [if_neg hS, if_neg hNN]
      simp only [htok]
      cases hcl2 : classifyLogin19 r2 with
      | error e => rfl
      | ok lb2 => by_cases hS2 : lb2.result = "Success" <;> simp [hS2]
    · intro lb2 g1 g2 g3 g4
      have hcl2 : classifyLogin19 r2 = Except.ok lb2 := by
        simp [classifyLogin19, g1, g2, g3, g4]
      constructor
      · intro hS2
        simp only [api_login19, hcl1]
        rw [if_neg hS, if_neg hNN]
        simp only [htok, hcl2]
        simp [hS2]
      · intro hS2
        simp only [api_login19, hcl1]
        rw [if_neg hS, if_neg hNN]
        simp only [htok, hcl2]
        simp [hS2]
  · intro ra rb
    simp only [api_login19]
    cases hcl : classifyLogin19 ra with
    | error e => simp
    | ok lba =>
      by_cases hS : lba.result = "Success"
      · simp [hS]
      · by_cases hN : lba.result = "NeedToken"
        · cases htk : lba.token with
          | none => simp [hS, hN, htk]
          | some tk =>
            cases hcl2 : classifyLogin19 rb with
            | error e => simp [hS, hN, htk, hcl2]
            | ok lb2 =>
              by_cases hS2 : lb2.result = "Success" <;>
                simp [hS, hN, htk, hcl2, hS2]
        · simp [hS, hN]

/-- C6 witness: first attempt answers `NeedToken` with token `T`, second
attempt answers `Success`: two POSTs, the second resending credentials plus
`T`, overall success. -/
theorem api_login19_handshake_witness :
    (api_login19 "u" "p" ⟨200, none, none, some ⟨"NeedToken", some "T"⟩⟩
        ⟨200, none, none, some ⟨"Success", none⟩⟩).1 = Except.ok () ∧
    (api_login19 "u" "p" ⟨200, none, none, some ⟨"NeedToken", some "T"⟩⟩
        ⟨200, none, none, some ⟨"Success", none⟩⟩).2.1 = 2 ∧
    (api_login19 "u" "p" ⟨200, none, none, some ⟨"NeedToken", some "T"⟩⟩
        ⟨200, none, none, some ⟨"Success", none⟩⟩).2.2 =
      some [("action", "login"), ("format", "json"), ("lgname", "u"),
        ("lgpassword", "p"), ("lgtoken", "T")] := by
  have h := api_login19_handshake "u" "p"
    ⟨200, none, none, some ⟨"NeedToken", some "T"⟩⟩
    ⟨200, none, none, some ⟨"Success", none⟩⟩
    ⟨"NeedToken", some "T"⟩ rfl rfl rfl rfl
  obtain ⟨-, -, h3, -⟩ := h
  obtain ⟨hcount, hparams, hres⟩ := h3 "T" rfl rfl
  exact ⟨(hres ⟨"Success", none⟩ rfl rfl rfl rfl).1 rfl, hcount, hparams⟩

/-- C7: on one modern session, any non-empty sequence of edit/delete calls
whose first call's token query succeeds issues exactly one token-fetch
request in total — by that first call, whatever its kind — and ends with
that token cached; no later call fetches again, regardless of the mutation
responses. -/
theorem modern_csrf_single_fetch (c : MCall) (f : TR31) (m : MutResponse)
    (rest : List (MCall × TR31 × MutResponse)) (tok : String)
    (hfetch : get_token31 "csrf" f = Except.ok tok) :
    runCalls31 initM31 ((c, f, m) :: rest) = (⟨some tok⟩, 1) := by
  cases c with
  | edit pg tx sm =>
    simp [runCalls31, runCall31, edit_page31, initM31, hfetch,
      runCalls31_cached]
  | del pg rsn =>
    simp [runCalls31, runCall31, delete_page31, initM31, hfetch,
      runCalls31_cached]

/-- C7 witness: two sequential `edit_page` calls on a fresh modern session
trigger exactly one token fetch. -/
theorem modern_csrf_single_fetch_witness :
    get_token31 "csrf" ⟨200, none, some [("csrftoken", "T")]⟩ =
      Except.ok "T" ∧
    runCalls31 initM31
      [(MCall.edit "A" "x" none, ⟨200, none, some [("csrftoken", "T")]⟩,
         ⟨200, none⟩),
       (MCall.edit "B" "y" none, ⟨200, none, some [("csrftoken", "T2")]⟩,
         ⟨200, none⟩)] = (⟨some "T"⟩, 1) :=
  ⟨by decide,
   modern_csrf_single_fetch (MCall.edit "A" "x" none)
     ⟨200, none, some [("csrftoken", "T")]⟩ ⟨200, none⟩
     [(MCall.edit "B" "y" none, ⟨200, none, some [("csrftoken", "T2")]⟩,
        ⟨200, none⟩)] "T" (by decide)⟩

/-- C8: on one legacy session, an edit of title `a` then an edit of a
different title `b` issue two separate edit-token fetches, one naming each
title; a later second edit of `a` issues no fetch and reuses the token
cached for `a`; the same per-title discipline holds for deletes with
delete-type tokens. -/
theorem legacy_token_scoping (a b : String) (hab : a ≠ b)
    (t1 t2 t3 : String) (fa fb f3 ga gb g3 : TokResponse)
    (m1 m2 m3 n1 n2 n3 : MutResponse) (ta tb ua ub : String)
    (hfa : get_tokens19 "edit" fa = Except.ok [(a, ta)])
    (hfb : get_tokens19 "edit" fb = Except.ok [(b, tb)])
    (hga : get_tokens19 "delete" ga = Except.ok [(a, ua)])
    (hgb : get_tokens19 "delete" gb = Except.ok [(b, ub)]) :
    (edit_page19 initL19 a t1 none fa m1).fetchLog = [("edit", a)] ∧
    (edit_page19 (edit_page19 initL19 a t1 none fa m1).state b t2 none fb
      m2).fetchLog = [("edit", b)] ∧
    (edit_page19 (edit_page19 (edit_page19 initL19 a t1 none fa m1).state b
      t2 none fb m2).state a t3 none f3 m3).fetchLog = [] ∧
    (edit_page19 (edit_page19 (edit_page19 initL19 a t1 none fa m1).state b
      t2 none fb m2).state a t3 none f3 m3).posted =
      some [("action", PVal.s "edit"), ("title", PVal.s a),
        ("text", PVal.s t3), ("format", PVal.s "json"),
        ("token", PVal.tup ta)] ∧
    (delete_page19 initL19 a none ga n1).fetchLog = [("delete", a)] ∧
    (delete_page19 (delete_page19 initL19 a none ga n1).state b none gb
      n2).fetchLog = [("delete", b)] ∧
    (delete_page19 (delete_page19 (delete_page19 initL19 a none ga n1).state
      b none gb n2).state a none g3 n3).fetchLog = [] ∧
    (delete_page19 (delete_page19 (delete_page19 initL19 a none ga n1).state
      b none gb n2).state a none g3 n3).posted =
      some [("action", PVal.s "delete"), ("title", PVal.s a),
        ("format", PVal.s "json"), ("token", PVal.tup ua)] := by
  have hba : (b == a) = false := by
    simp [Ne.symm hab]
  have hab2 : (a == b) = false := by
    simp [hab]
  have e1 : edit_page19 initL19 a t1 none fa m1 =
      ⟨classifyMut m1, ⟨[(a, ta)], []⟩, [("edit", a)],
        some [("action", PVal.s "edit"), ("title", PVal.s a),
          ("text", PVal.s t1), ("format", PVal.s "json"),
          ("token", PVal.tup ta)]⟩ := by
    simp [edit_page19, initL19, hfa, List.lookup]
  have e2 : edit_page19 (⟨[(a, ta)], []⟩ : L19State) b t2 none fb m2 =
      ⟨classifyMut m2, ⟨[(b, tb), (a, ta)], []⟩, [("edit", b)],
        some [("action", PVal.s "edit"), ("title", PVal.s b),
          ("text", PVal.s t2), ("format", PVal.s "json"),
          ("token", PVal.tup tb)]⟩ := by
    simp [edit_page19, hfb, List.lookup, hba]
  have e3 : edit_page19 (⟨[(b, tb), (a, ta)], []⟩ : L19State) a t3 none f3
      m3 =
      ⟨classifyMut m3, ⟨[(b, tb), (a, ta)], []⟩, [],
        some [("action", PVal.s "edit"), ("title", PVal.s a),
          ("text", PVal.s t3), ("format", PVal.s "json"),
          ("token", PVal.tup ta)]⟩ := by
    simp [edit_page19, List.lookup, hab2]
  have d1 : delete_page19 initL19 a none ga n1 =
      ⟨classifyDel19 n1, ⟨[], [(a, ua)]⟩, [("delete", a)],
        some [("action", PVal.s "delete"), ("title", PVal.s a),
          ("format", PVal.s "json"), ("token", PVal.tup ua)]⟩ := by
    simp [delete_page19, initL19, hga, List.lookup]
  have d2 : delete_page19 (⟨[], [(a, ua)]⟩ : L19State) b none gb n2 =
      ⟨classifyDel19 n2, ⟨[], [(b, ub), (a, ua)]⟩, [("delete", b)],
        some [("action", PVal.s "delete"), ("title", PVal.s b),
          ("format", PVal.s "json"), ("token", PVal.tup ub)]⟩ := by
    simp [delete_page19, hgb, List.lookup, hba]
  have d3 : delete_page19 (⟨[], [(b, ub), (a, ua)]⟩ : L19State) a none g3
      n3 =
      ⟨classifyDel19 n3, ⟨[], [(b, ub), (a, ua)]⟩, [],
        some [("action", PVal.s "delete"), ("title", PVal.s a),
          ("format", PVal.s "json"), ("token", PVal.tup ua)]⟩ := by
    simp [delete_page19, List.lookup, hab2]
  rw [e1]
  rw [show (⟨classifyMut m1, ⟨[(a, ta)], []⟩, [("edit", a)],
    some [("action", PVal.s "edit"), ("title", PVal.s a),
      ("text", PVal.s t1), ("format", PVal.s "json"),
      ("token", PVal.tup ta)]⟩ : CallOut L19State (String × String)).state =
    (⟨[(a, ta)], []⟩ : L19State) from rfl]
  rw [e2]
  rw [show (⟨classifyMut m2, ⟨[(b, tb), (a, ta)], []⟩, [("edit", b)],
    some [("action", PVal.s "edit"), ("title", PVal.s b),
      ("text", PVal.s t2), ("format", PVal.s "json"),
      ("token", PVal.tup tb)]⟩ : CallOut L19State (String × String)).state =
    (⟨[(b, tb), (a, ta)], []⟩ : L19State) from rfl]
  rw [e3, d1]
  rw [show (⟨classifyDel19 n1, ⟨[], [(a, ua)]⟩, [("delete", a)],
    some [("action", PVal.s "delete"), ("title", PVal.s a),
      ("format", PVal.s "json"),
      ("token", PVal.tup ua)]⟩ : CallOut L19State (String × String)).state =
    (⟨[], [(a, ua)]⟩ : L19State) from rfl]
  rw [d2]
  rw [show (⟨classifyDel19 n2, ⟨[], [(b, ub), (a, ua)]⟩, [("delete", b)],
    some [("action", PVal.s "delete"), ("title", PVal.s b),
      ("format", PVal.s "json"),
      ("token", PVal.tup ub)]⟩ : CallOut L19State (String × String)).state =
    (⟨[], [(b, ub), (a, ua)]⟩ : L19State) from rfl]
  rw [d3]
  exact ⟨rfl, rfl, rfl, rfl, rfl, rfl, rfl, rfl⟩

/-- C8 witness: concrete titles A and B with concrete token-query
responses. -/
theorem legacy_token_scoping_witness :
    (edit_page19 initL19 "A" "x" none
      ⟨200, none, none, [⟨"A", [("edittoken", "tA")]⟩]⟩
      ⟨200, none⟩).fetchLog = [("edit", "A")] ∧
    (edit_page19 (edit_page19 initL19 "A" "x" none
      ⟨200, none, none, [⟨"A", [("edittoken", "tA")]⟩]⟩
      ⟨200, none⟩).state "B" "y" none
      ⟨200, none, none, [⟨"B", [("edittoken", "tB")]⟩]⟩
      ⟨200, none⟩).fetchLog = [("edit", "B")] ∧
    (edit_page19 (edit_page19 (edit_page19 initL19 "A" "x" none
      ⟨200, none, none, [⟨"A", [("edittoken", "tA")]⟩]⟩
      ⟨200, none⟩).state "B" "y" none
      ⟨200, none, none, [⟨"B", [("edittoken", "tB")]⟩]⟩
      ⟨200, none⟩).state "A" "z" none
      ⟨200, none, none, []⟩
      ⟨200, none⟩).fetchLog = [] ∧
    (edit_page19 (edit_page19 (edit_page19 initL19 "A" "x" none
      ⟨200, none, none, [⟨"A", [("edittoken", "tA")]⟩]⟩
      ⟨200, none⟩).state "B" "y" none
      ⟨200, none, none, [⟨"B", [("edittoken", "tB")]⟩]⟩
      ⟨200, none⟩).state "A" "z" none
      ⟨200, none, none, []⟩
      ⟨200, none⟩).posted =
      some [("action", PVal.s "edit"), ("title", PVal.s "A"),
        ("text", PVal.s "z"), ("format", PVal.s "json"),
        ("token", PVal.tup "tA")] ∧
    (delete_page19 initL19 "A" none
      ⟨200, none, none, [⟨"A", [("deletetoken", "uA")]⟩]⟩
      ⟨200, none⟩).fetchLog = [("delete", "A")] ∧
    (delete_page19 (delete_page19 initL19 "A" none
      ⟨200, none, none, [⟨"A", [("deletetoken", "uA")]⟩]⟩
      ⟨200, none⟩).state "B" none
      ⟨200, none, none, [⟨"B", [("deletetoken", "uB")]⟩]⟩
      ⟨200, none⟩).fetchLog = [("delete", "B")] ∧
    (delete_page19 (delete_page19 (delete_page19 initL19 "A" none
      ⟨200, none, none, [⟨"A", [("deletetoken", "uA")]⟩]⟩
      ⟨200, none⟩).state "B" none
      ⟨200, none, none, [⟨"B", [("deletetoken", "uB")]⟩]⟩
      ⟨200, none⟩).state "A" none
      ⟨200, none, none, []⟩
      ⟨200, none⟩).fetchLog = [] ∧
    (delete_page19 (delete_page19 (delete_page19 initL19 "A" none
      ⟨200, none, none, [⟨"A", [("deletetoken", "uA")]⟩]⟩
      ⟨200, none⟩).state "B" none
      ⟨200, none, none, [⟨"B", [("deletetoken", "uB")]⟩]⟩
      ⟨200, none⟩).state "A" none
      ⟨200, none, none, []⟩
      ⟨200, none⟩).posted =
      some [("action", PVal.s "delete"), ("title", PVal.s "A"),
        ("format", PVal.s "json"), ("token", PVal.tup "uA")] :=
  legacy_token_scoping "A" "B" (by decide) "x" "y" "z"
    ⟨200, none, none, [⟨"A", [("edittoken", "tA")]⟩]⟩
    ⟨200, none, none, [⟨"B", [("edittoken", "tB")]⟩]⟩
    ⟨200, none, none, []⟩
    ⟨200, none, none, [⟨"A", [("deletetoken", "uA")]⟩]⟩
    ⟨200, none, none, [⟨"B", [("deletetoken", "uB")]⟩]⟩
    ⟨200, none, none, []⟩
    ⟨200, none⟩ ⟨200, none⟩ ⟨200, none⟩ ⟨200, none⟩ ⟨200, none⟩ ⟨200, none⟩
    "tA" "tB" "uA" "uB" (by decide) (by decide) (by decide) (by decide)

/-- C9: the token parameter a legacy mutation places in its POST body is the
cached token wrapped in a one-element tuple (source lines 275 and 303,
trailing comma), not the plain token string. -/
theorem legacy_token_tuple (st : L19State) (p t : String)
    (sm rsn : Option String) (f g : TokResponse) (m n : MutResponse)
    (tokE tokD : String)
    (hE : List.lookup p st.editTokens = some tokE)
    (hD : List.lookup p st.deleteTokens = some tokD) :
    (∃ ps, (edit_page19 st p t sm f m).posted = some ps ∧
      List.lookup "token" ps = some (PVal.tup tokE)) ∧
    (∃ ps, (delete_page19 st p rsn g n).posted = some ps ∧
      List.lookup "token" ps = some (PVal.tup tokD)) ∧
    PVal.tup tokE ≠ PVal.s tokE ∧ PVal.tup tokD ≠ PVal.s tokD := by
  refine ⟨?_, ?_, by simp, by simp⟩
  · cases sm with
    | none =>
      refine ⟨[("action", PVal.s "edit"), ("title", PVal.s p),
        ("text", PVal.s t), ("format", PVal.s "json"),
        ("token", PVal.tup tokE)], ?_, ?_⟩
      · simp [edit_page19, hE]
      · simp [List.lookup]
    | some s0 =>
      refine ⟨[("action", PVal.s "edit"), ("title", PVal.s p),
        ("text", PVal.s t), ("format", PVal.s "json"),
        ("summary", PVal.s s0), ("token", PVal.tup tokE)], ?_, ?_⟩
      · simp [edit_page19, hE]
      · simp [List.lookup]
  · cases rsn with
    | none =>
      refine ⟨[("action", PVal.s "delete"), ("title", PVal.s p),
        ("format", PVal.s "json"), ("token", PVal.tup tokD)], ?_, ?_⟩
      · simp [delete_page19, hD]
      · simp [List.lookup]
    | some r0 =>
      refine ⟨[("action", PVal.s "delete"), ("title", PVal.s p),
        ("format", PVal.s "json"), ("reason", PVal.s r0),
        ("token", PVal.tup tokD)], ?_, ?_⟩
      · simp [delete_page19, hD]
      · simp [List.lookup]

/-- C9 witness: a concrete cached-token state; the posted token parameter is
the tuple-wrapped value. -/
theorem legacy_token_tuple_witness :
    (∃ ps, (edit_page19 ⟨[("P", "tP")], [("P", "dP")]⟩ "P" "txt" none
        ⟨200, none, none, []⟩ ⟨200, none⟩).posted = some ps ∧
      List.lookup "token" ps = some (PVal.tup "tP")) ∧
    (∃ ps, (delete_page19 ⟨[("P", "tP")], [("P", "dP")]⟩ "P" none
        ⟨200, none, none, []⟩ ⟨200, none⟩).posted = some ps ∧
      List.lookup "token" ps = some (PVal.tup "dP")) ∧
    PVal.tup "tP" ≠ PVal.s "tP" ∧ PVal.tup "dP" ≠ PVal.s "dP" :=
  legacy_token_tuple ⟨[("P", "tP")], [("P", "dP")]⟩ "P" "txt" none none
    ⟨200, none, none, []⟩ ⟨200, none, none, []⟩ ⟨200, none⟩ ⟨200, none⟩
    "tP" "dP" (by decide) (by decide)

/-- C10: on the modern client a mutating call with no cached token fetches
the CSRF token before building the mutation request, so when the fetch
fails the call returns that failure, sends no mutation POST, and leaves the
session token cache unset. -/
theorem modern_mutation_atomic_on_fetch_failure (p t : String)
    (sm rsn : Option String) (f : TR31) (m n : MutResponse) (e : MWError)
    (hf : get_token31 "csrf" f = Except.error e) :
    edit_page31 initM31 p t sm f m =
      ⟨Except.error e, initM31, ["csrf"], none⟩ ∧
    delete_page31 initM31 p rsn f n =
      ⟨Except.error e, initM31, ["csrf"], none⟩ := by
  constructor <;> simp [edit_page31, delete_page31, initM31, hf]

/-- C10 witness: a token fetch failing with HTTP 500 aborts both mutating
calls before any POST, leaving the cache unset. -/
theorem modern_mutation_atomic_witness :
    edit_page31 initM31 "P" "x" none ⟨500, none, none⟩ ⟨200, none⟩ =
      ⟨Except.error (MWError.statusError 500), initM31, ["csrf"], none⟩ ∧
    delete_page31 initM31 "P" none ⟨500, none, none⟩ ⟨200, none⟩ =
      ⟨Except.error (MWError.statusError 500), initM31, ["csrf"], none⟩ :=
  modern_mutation_atomic_on_fetch_failure "P" "x" none none ⟨500, none, none⟩
    ⟨200, none⟩ ⟨200, none⟩ (MWError.statusError 500) (by decide)
